import Mathlib

/-!
Shallow embedding of the flannel subnet-allocator core: the network
partition validator (ParseConfig), the subnet-key codec (MakeSubnetKey and
ParseSubnetKey), the IP address arithmetic they use, event type
(de)serialization, and a spec-modelled lease-acquisition store.
Sources: subnet/subnet.go, pkg/ip/ip.go and the two unnamed source files
of the repository (the config validator and the protocol helpers).
Addresses are modelled as natural numbers below 2^32 (IPv4) or 2^128
(IPv6); Go's math/big arithmetic on them is exact integer arithmetic.
-/

instance instDecEqExcept {ε α : Type} [DecidableEq ε] [DecidableEq α] :
    DecidableEq (Except ε α) := fun a b =>
  match a, b with
  | .error e, .error f =>
    if h : e = f then .isTrue (congrArg Except.error h)
    else .isFalse fun hh => h (Except.error.inj hh)
  | .error _, .ok _ => .isFalse fun hh => Except.noConfusion hh
  | .ok _, .error _ => .isFalse fun hh => Except.noConfusion hh
  | .ok x, .ok y =>
    if h : x = y then .isTrue (congrArg Except.ok h)
    else .isFalse fun hh => h (Except.ok.inj hh)

/-- Address family, as computed by ProtocolByIPNet: IPv4 when the
network's IP has a 4-byte form (To4 non-nil), IPv6 otherwise. -/
inductive Protocol where
  | v4
  | v6
deriving DecidableEq

/-- Width in bits of an address of the given family. -/
def addrBits : Protocol → Nat
  | .v4 => 32
  | .v6 => 128

/-- A net.IPNet: address family, base address as an integer, and the
number of leading one bits of the mask (net.IPMask.Size, which is what
PrefixLenByIPNet returns). -/
structure IPNet where
  proto : Protocol
  ip : Nat
  prefixLen : Nat
deriving DecidableEq

/-- The CIDR mask with prefixLen leading one bits in a bits-wide address. -/
def maskOf (bits plen : Nat) : Nat := 2 ^ bits - 2 ^ (bits - plen)

/-- net.IPNet.Contains for a candidate address of the same family as the
network: byte-wise AND both the candidate and the network base with the
mask and compare the results. -/
def netContains (n : IPNet) (a : Nat) : Bool :=
  Nat.land a (maskOf (addrBits n.proto) n.prefixLen)
    == Nat.land n.ip (maskOf (addrBits n.proto) n.prefixLen)

/-- ip.NextNIP: load the address into a big.Int, add n, and write the
bytes back (the result is assumed to fit the address width, as it does at
every call site modelled here). -/
def nextNIP (a n : Nat) : Nat := a + n

/-- ip.PreviousNIP: load the address into a big.Int, subtract n, and write
the bytes back. big.Int.Bytes returns the absolute value's bytes, so a
negative difference comes back as its absolute value. -/
def previousNIP (a n : Nat) : Nat := if n ≤ a then a - n else n - a

/-- ip.CIDRLastIP: the last address of the range (base with all host bits
set). -/
def cidrLastIP (n : IPNet) : Nat :=
  if n.prefixLen = addrBits n.proto then n.ip
  else Nat.lor n.ip (2 ^ (addrBits n.proto - n.prefixLen) - 1)

/-- The json.RawMessage Backend payload of a Config, together with the
outcome of json.Unmarshal-ing it into a struct with a single Type string
field: `absent` stands for a zero-length payload (field missing),
`malformed` for a payload json.Unmarshal rejects, and `object t` for a
well-formed payload whose Type field decodes to t (t = none when the
field is missing, in which case Go leaves the string at its zero value). -/
inductive RawBackend where
  | absent
  | malformed
  | object (typeField : Option String)
deriving DecidableEq

/-- parseBackendType: a zero-length payload defaults to "udp"; a payload
json.Unmarshal rejects is a decode error; otherwise the Type field (the
zero value "" when the field is absent). -/
def parseBackendType (be : RawBackend) : Except String String :=
  match be with
  | .absent => Except.ok "udp"
  | .malformed => Except.error "error decoding Backend property of config"
  | .object t => Except.ok (t.getD "")

/-- The Config record as json.Unmarshal leaves it at the top of
ParseConfig, before validation: SubnetMin and SubnetMax are address
values of the network's family (the family's all-zero address when not
supplied), SubnetLen is 0 when not supplied. -/
structure ConfigIn where
  network : IPNet
  subnetMin : Nat
  subnetMax : Nat
  subnetLen : Nat
  backend : RawBackend
deriving DecidableEq

/-- The validated Config that ParseConfig returns. -/
structure Config where
  network : IPNet
  subnetMin : Nat
  subnetMax : Nat
  subnetLen : Nat
  backendType : String
  backend : RawBackend
deriving DecidableEq

/-- SubnetLen resolution of ParseConfig, IPv4 branch (part_000 lines
60-87): a caller-supplied positive SubnetLen is rejected above 30 or
below prefixLen+2 and kept otherwise; an unsupplied one is rejected when
the network prefix exceeds 28, defaulted to 24 when the prefix is at
most 22, and set to prefixLen+2 otherwise. -/
def resolveSubnetLenV4 (p len : Nat) : Except String Nat :=
  if 0 < len then
    if 30 < len then Except.error "SubnetLen must be less than /31"
    else if len < p + 2 then
      Except.error "Network must be able to accommodate at least four subnets"
    else Except.ok len
  else
    if 28 < p then
      Except.error "Network is too small. Minimum useful network prefix is /28"
    else if p ≤ 22 then Except.ok 24
    else Except.ok (p + 2)

/-- SubnetLen resolution of ParseConfig, IPv6 branch (part_000 lines
115-142), with the family's constants 126, 124, 118 and 120. -/
def resolveSubnetLenV6 (p len : Nat) : Except String Nat :=
  if 0 < len then
    if 126 < len then Except.error "SubnetLen must be less than /127"
    else if len < p + 2 then
      Except.error "Network must be able to accommodate at least four subnets"
    else Except.ok len
  else
    if 124 < p then
      Except.error "Network is too small. Minimum useful network prefix is /124"
    else if p ≤ 118 then Except.ok 120
    else Except.ok (p + 2)

/-- The SubnetMin/SubnetMax phase of ParseConfig (part_000 lines 89-113
and the identical IPv6 copy at lines 144-168, which differ only in the
address width and in comparing against the family's all-zero address):
subnetSize is 2^(bits-SubnetLen); an all-zero SubnetMin defaults to
Network.IP + subnetSize and an explicit one must be contained in the
network; an all-zero SubnetMax defaults to PreviousNIP(Network.IP,
subnetSize) and an explicit one must be contained; finally both values
are re-checked for containment (the source comments call this the
SubnetLen-boundary alignment check). Error strings in the source append
the offending address via fmt.Errorf; only the fixed prefix is kept
here. -/
def resolveMin (bits : Nat) (net : IPNet) (len sMin : Nat) :
    Except String Nat :=
  if sMin = 0 then Except.ok (nextNIP net.ip (2 ^ (bits - len)))
  else if netContains net sMin = false then
    Except.error "SubnetMin is not in the range of the Network"
  else Except.ok sMin

/-- The SubnetMax sub-step: an all-zero SubnetMax defaults to
PreviousNIP(Network.IP, subnetSize) (part_000 lines 100-104 and
155-159). -/
def resolveMax (bits : Nat) (net : IPNet) (len sMax : Nat) :
    Except String Nat :=
  if sMax = 0 then Except.ok (previousNIP net.ip (2 ^ (bits - len)))
  else if netContains net sMax = false then
    Except.error "SubnetMax is not in the range of the Network"
  else Except.ok sMax

/-- The two bound resolutions followed by the containment re-checks of
both values (part_000 lines 106-113 and 161-168). -/
def resolveBounds (bits : Nat) (net : IPNet) (len sMin sMax : Nat) :
    Except String (Nat × Nat) :=
  match resolveMin bits net len sMin with
  | .error e => Except.error e
  | .ok mn =>
    match resolveMax bits net len sMax with
    | .error e => Except.error e
    | .ok mx =>
      if netContains net mn = false then
        Except.error "SubnetMin is not on a SubnetLen boundary"
      else if netContains net mx = false then
        Except.error "SubnetMax is not on a SubnetLen boundary"
      else Except.ok (mn, mx)

/-- ParseConfig (part_000 lines 51-178) after the initial json.Unmarshal
of the document into the Config record: pick the family by
ProtocolByIPNet, resolve SubnetLen, resolve and re-check the bounds, and
extract the backend type. -/
def parseConfig (cfg : ConfigIn) : Except String Config :=
  match (if cfg.network.proto = Protocol.v4
         then resolveSubnetLenV4 cfg.network.prefixLen cfg.subnetLen
         else resolveSubnetLenV6 cfg.network.prefixLen cfg.subnetLen) with
  | .error e => Except.error e
  | .ok len =>
    match resolveBounds (addrBits cfg.network.proto) cfg.network len
        cfg.subnetMin cfg.subnetMax with
    | .error e => Except.error e
    | .ok (mn, mx) =>
      match parseBackendType cfg.backend with
      | .error e => Except.error e
      | .ok bt =>
        Except.ok { network := cfg.network, subnetMin := mn, subnetMax := mx,
                    subnetLen := len, backendType := bt, backend := cfg.backend }

/-- Decimal digit list of n with fuel (Go's uitoa: most significant digit
first, no leading zeros, single digit for n below 10). -/
def natDigitsAux (fuel n : Nat) : List Char :=
  match fuel with
  | 0 => []
  | fuel' + 1 =>
    if n < 10 then [Nat.digitChar n]
    else natDigitsAux fuel' (n / 10) ++ [Nat.digitChar (n % 10)]

/-- Decimal digit string of n (fuel n+1 always suffices: the quotient
strictly decreases). -/
def natDigits (n : Nat) : List Char := natDigitsAux (n + 1) n

/-- One 16-bit group of encoding/hex output: four lowercase hex digits,
most significant nibble first, with leading zeros. -/
def hexGroup (v : Nat) : List Char :=
  [Nat.digitChar (v / 4096 % 16), Nat.digitChar (v / 256 % 16),
   Nat.digitChar (v / 16 % 16), Nat.digitChar (v % 16)]

/-- ip.IPExpand: the 4-byte form prints as standard dotted decimal
(ip.String); otherwise hex.Encode the 16 bytes and join the eight 4-digit
slices with colons. -/
def ipExpand (p : Protocol) (a : Nat) : List Char :=
  match p with
  | .v4 =>
    natDigits (a / 2 ^ 24 % 256) ++ '.' ::
      (natDigits (a / 2 ^ 16 % 256) ++ '.' ::
        (natDigits (a / 2 ^ 8 % 256) ++ '.' :: natDigits (a % 256)))
  | .v6 =>
    hexGroup (a / 2 ^ 112 % 65536) ++ ':' ::
      (hexGroup (a / 2 ^ 96 % 65536) ++ ':' ::
        (hexGroup (a / 2 ^ 80 % 65536) ++ ':' ::
          (hexGroup (a / 2 ^ 64 % 65536) ++ ':' ::
            (hexGroup (a / 2 ^ 48 % 65536) ++ ':' ::
              (hexGroup (a / 2 ^ 32 % 65536) ++ ':' ::
                (hexGroup (a / 2 ^ 16 % 65536) ++ ':' :: hexGroup (a % 65536)))))))

/-- ip.IPNetExpand: expanded address, a slash, and the prefix length
(Mask.Size) in decimal. -/
def ipNetExpand (n : IPNet) : List Char :=
  ipExpand n.proto n.ip ++ '/' :: natDigits n.prefixLen

/-- strings.ReplaceAll(s, "/", "-"): every occurrence of the one-byte
pattern is replaced. -/
def replaceSlashDash : List Char → List Char
  | [] => []
  | c :: cs => (if c = '/' then '-' else c) :: replaceSlashDash cs

/-- MakeSubnetKey (subnet.go lines 142-144). -/
def makeSubnetKey (n : IPNet) : List Char := replaceSlashDash (ipNetExpand n)

/-- Split a character list on a separator character (used to model the
shape of the two subnet-key regular expressions). -/
def splitOnChar (sep : Char) : List Char → List (List Char)
  | [] => [[]]
  | c :: cs =>
    if c = sep then [] :: splitOnChar sep cs
    else
      match splitOnChar sep cs with
      | [] => [[c]]
      | h :: t => (c :: h) :: t

/-- Nonempty run of decimal digits, the regex class backslash-d repeated. -/
def charsDigits (l : List Char) : Bool := decide (l ≠ []) && l.all Char.isDigit

/-- Nonempty run of word characters, the regex class backslash-w repeated. -/
def charsWord (l : List Char) : Bool :=
  decide (l ≠ []) && l.all fun c => c.isAlphanum || c = '_'

/-- v4SubnetRegex.FindStringSubmatch, restricted to strings the pattern
matches in full (every string ParseSubnetKey is given by the rest of the
repository is a MakeSubnetKey output, which the pattern matches in full):
four dot-separated digit runs, a dash, and a digit run, returning the
address text and the prefix-length text. -/
def v4SubnetMatch (s : List Char) : Option (List Char × List Char) :=
  match splitOnChar '-' s with
  | [ipS, lenS] =>
    match splitOnChar '.' ipS with
    | [a, b, c, d] =>
      if charsDigits a && charsDigits b && charsDigits c && charsDigits d
          && charsDigits lenS
      then some (ipS, lenS) else none
    | _ => none
  | _ => none

/-- v6SubnetRegex.FindStringSubmatch under the same whole-string
restriction: eight colon-separated word runs, a dash, and a digit run. -/
def v6SubnetMatch (s : List Char) : Option (List Char × List Char) :=
  match splitOnChar '-' s with
  | [ipS, lenS] =>
    match splitOnChar ':' ipS with
    | [a, b, c, d, e, f, g, h] =>
      if charsWord a && charsWord b && charsWord c && charsWord d
          && charsWord e && charsWord f && charsWord g && charsWord h
          && charsDigits lenS
      then some (ipS, lenS) else none
    | _ => none
  | _ => none

/-- Value of a decimal digit run (strconv.ParseUint base 10, and the
octet scanner inside net.ParseIP): none on a non-digit. -/
def parseDecimalAux : List Char → Nat → Option Nat
  | [], acc => some acc
  | c :: cs, acc =>
    if c.isDigit then parseDecimalAux cs (acc * 10 + (c.toNat - 48))
    else none

/-- Decimal parse of a nonempty digit run. -/
def parseDecimal (l : List Char) : Option Nat :=
  match l with
  | [] => none
  | _ => parseDecimalAux l 0

/-- strconv.ParseUint(s, 10, 5): decimal parse rejecting values that do
not fit in 5 bits (above 31). -/
def parseUintBits5 (l : List Char) : Option Nat :=
  match parseDecimal l with
  | some v => if v < 32 then some v else none
  | none => none

/-- One dotted-decimal octet as net.ParseIP reads it: at most 255, no
leading zero. -/
def parseOctet (l : List Char) : Option Nat :=
  match parseDecimal l with
  | some v =>
    if v ≤ 255 ∧ (l.length = 1 ∨ l.head? ≠ some '0') then some v else none
  | none => none

/-- net.ParseIP on a dotted-decimal IPv4 text: four octets combined into
the 32-bit address value. -/
def parseIPv4Chars (s : List Char) : Option Nat :=
  match splitOnChar '.' s with
  | [a, b, c, d] =>
    match parseOctet a, parseOctet b, parseOctet c, parseOctet d with
    | some va, some vb, some vc, some vd =>
      some (va * 2 ^ 24 + vb * 2 ^ 16 + vc * 2 ^ 8 + vd)
    | _, _, _, _ => none
  | _ => none

/-- Value of one hex digit, as net.ParseIP accepts them. -/
def hexDigitVal (c : Char) : Option Nat :=
  if '0' ≤ c ∧ c ≤ '9' then some (c.toNat - 48)
  else if 'a' ≤ c ∧ c ≤ 'f' then some (c.toNat - 87)
  else if 'A' ≤ c ∧ c ≤ 'F' then some (c.toNat - 55)
  else none

/-- Accumulate a run of hex digits. -/
def parseHexAux : List Char → Nat → Option Nat
  | [], acc => some acc
  | c :: cs, acc =>
    match hexDigitVal c with
    | some d => parseHexAux cs (acc * 16 + d)
    | none => none

/-- One 16-bit group of a fully written IPv6 text: one to four hex
digits. -/
def parseHexGroup (l : List Char) : Option Nat :=
  if 1 ≤ l.length ∧ l.length ≤ 4 then parseHexAux l 0 else none

/-- net.ParseIP on an IPv6 text with all eight groups written out (the
only shape the v6 regex passes along): eight colon-separated hex groups
combined into the 128-bit address value. -/
def parseIPv6Chars (s : List Char) : Option Nat :=
  match splitOnChar ':' s with
  | [a, b, c, d, e, f, g, h] =>
    match parseHexGroup a, parseHexGroup b, parseHexGroup c, parseHexGroup d,
        parseHexGroup e, parseHexGroup f, parseHexGroup g, parseHexGroup h with
    | some va, some vb, some vc, some vd, some ve, some vf, some vg, some vh =>
      some (va * 2 ^ 112 + vb * 2 ^ 96 + vc * 2 ^ 80 + vd * 2 ^ 64
        + ve * 2 ^ 48 + vf * 2 ^ 32 + vg * 2 ^ 16 + vh)
    | _, _, _, _, _, _, _, _ => none
  | _ => none

/-- net.ParseCIDR on the reassembled v4 text ip/len: succeeds for a
prefix length up to 32 and returns the network with the address masked. -/
def parseCIDRv4 (a plen : Nat) : Option IPNet :=
  if plen ≤ 32 then some ⟨Protocol.v4, Nat.land a (maskOf 32 plen), plen⟩
  else none

/-- net.ParseCIDR on the reassembled v6 text. -/
def parseCIDRv6 (a plen : Nat) : Option IPNet :=
  if plen ≤ 128 then some ⟨Protocol.v6, Nat.land a (maskOf 128 plen), plen⟩
  else none

/-- The IPv6 half of ParseSubnetKey (subnet.go lines 124-139): on a v6
regex match, a nil ParseIP returns nil; on a ParseUint error the function
falls to the final return nil; when ParseCIDR fails the source returns
the cidr value, which is nil on failure, and when ParseCIDR succeeds the
source returns the literal nil (lines 131-135, the success and failure
arms are swapped). -/
def parseSubnetKeyV6 (s : List Char) : Option IPNet :=
  match v6SubnetMatch s with
  | some (ipS, lenS) =>
    match parseIPv6Chars ipS with
    | none => none
    | some ipv =>
      match parseUintBits5 lenS with
      | some plen =>
        match parseCIDRv6 ipv plen with
        | none => none
        | some _ => none
      | none => none
  | none => none

/-- ParseSubnetKey (subnet.go lines 109-140): try the v4 pattern, with
the same swapped ParseCIDR arms as the v6 half (lines 117-121: on error
the nil cidr is returned, on success the literal nil); a ParseUint
failure falls through to the v6 half. -/
def parseSubnetKey (s : List Char) : Option IPNet :=
  match v4SubnetMatch s with
  | some (ipS, lenS) =>
    match parseIPv4Chars ipS with
    | none => none
    | some ipv =>
      match parseUintBits5 lenS with
      | some plen =>
        match parseCIDRv4 ipv plen with
        | none => none
        | some _ => none
      | none => parseSubnetKeyV6 s
  | none => parseSubnetKeyV6 s

/-- EventType is an int in the source, with EventAdded = 0 and
EventRemoved = 1. -/
abbrev EventType := Nat

/-- EventAdded, the first enumerator. -/
def EventAdded : EventType := 0

/-- EventRemoved, the second enumerator. -/
def EventRemoved : EventType := 1

/-- EventType.MarshalJSON: the two known enumerators marshal to the JSON
strings "added" and "removed"; any other value is an error. -/
def eventTypeMarshalJSON (et : EventType) : Except String String :=
  if et = EventAdded then Except.ok "\"added\""
  else if et = EventRemoved then Except.ok "\"removed\""
  else Except.error "bad event type"

/-- EventType.UnmarshalJSON: the raw bytes must be exactly the JSON
string "added" or "removed" (quotes included); anything else is the
error "bad event type" (the source also prints the raw value, a
diagnostic side effect with no bearing on the result). -/
def eventTypeUnmarshalJSON (data : String) : Except String EventType :=
  if data = "\"added\"" then Except.ok EventAdded
  else if data = "\"removed\"" then Except.ok EventRemoved
  else Except.error "bad event type"

/-- Modelled from the spec: the Manager implementations and their backing
store are not under src (only the Manager interface and the error values
are). The spec delegates mutual exclusion to the store's atomic
create-if-absent reservation, so the store state is the list of subnet
keys currently holding a live lease, and AcquireLease for an explicitly
requested subnet atomically fails with ErrLeaseTaken when the subnet's
key is already present and records it otherwise. -/
def acquireExplicit (taken : List (List Char)) (sn : IPNet) :
    Except String (List Char) × List (List Char) :=
  let key := makeSubnetKey sn
  if key ∈ taken then (Except.error "subnet: lease already taken", taken)
  else (Except.ok key, key :: taken)

/-- The 192.168.0.0/24 network of the spec's end-to-end example. -/
def net192 : IPNet := ⟨Protocol.v4, 0xC0A80000, 24⟩

/-- 192.168.0.0/24 with an explicit SubnetMax of 192.168.0.192 and
nothing else supplied. -/
def cfg192 : ConfigIn := ⟨net192, 0, 0xC0A800C0, 0, RawBackend.absent⟩

/-- cfg192 with SubnetLen 26 supplied explicitly (the same value the
default resolution produces). -/
def cfg192len : ConfigIn := ⟨net192, 0, 0xC0A800C0, 26, RawBackend.absent⟩

/-- cfg192 with a Backend payload that does not decode. -/
def cfg192mal : ConfigIn := ⟨net192, 0, 0xC0A800C0, 0, RawBackend.malformed⟩

/-- cfg192 with a well-formed Backend payload that has no Type field. -/
def cfg192obj : ConfigIn := ⟨net192, 0, 0xC0A800C0, 0, RawBackend.object none⟩

/-- The Config parseConfig returns for cfg192 and for cfg192len. -/
def out192 : Config := ⟨net192, 0xC0A80040, 0xC0A800C0, 26, "udp", RawBackend.absent⟩

/-- The Config parseConfig returns for cfg192obj. -/
def out192obj : Config :=
  ⟨net192, 0xC0A80040, 0xC0A800C0, 26, "", RawBackend.object none⟩

/-- The 10.0.0.0/16 network. -/
def net10 : IPNet := ⟨Protocol.v4, 0x0A000000, 16⟩

/-- 10.0.0.0/16 with an explicit SubnetMax of 10.0.255.0 and nothing else
supplied. -/
def cfg10 : ConfigIn := ⟨net10, 0, 0x0A00FF00, 0, RawBackend.absent⟩

/-- The Config parseConfig returns for cfg10. -/
def out10 : Config := ⟨net10, 0x0A000100, 0x0A00FF00, 24, "udp", RawBackend.absent⟩

/-- The fd00::/64 network. -/
def net6 : IPNet := ⟨Protocol.v6, 0xFD000000000000000000000000000000, 64⟩

/-- fd00::/64 with an explicit SubnetMax fd00::100:0000:0000 (offset 2^40)
and nothing else supplied. -/
def cfg6 : ConfigIn :=
  ⟨net6, 0, 0xFD000000000000000000000000000000 + 2 ^ 40, 0, RawBackend.absent⟩

/-- The Config parseConfig returns for cfg6. -/
def out6 : Config :=
  ⟨net6, 0xFD000000000000000000000000000000 + 2 ^ 8,
   0xFD000000000000000000000000000000 + 2 ^ 40, 120, "udp", RawBackend.absent⟩

/-- fd00::/64 with SubnetLen 100 supplied explicitly. -/
def cfg6len : ConfigIn :=
  ⟨net6, 0, 0xFD000000000000000000000000000000 + 2 ^ 40, 100, RawBackend.absent⟩

/-- The Config parseConfig returns for cfg6len. -/
def out6len : Config :=
  ⟨net6, 0xFD000000000000000000000000000000 + 2 ^ 28,
   0xFD000000000000000000000000000000 + 2 ^ 40, 100, "udp", RawBackend.absent⟩

/-- The fd00::/120 network, whose prefix sits in the band where the v6
default SubnetLen is prefix+2. -/
def net6b : IPNet := ⟨Protocol.v6, 0xFD000000000000000000000000000000, 120⟩

/-- fd00::/120 with an explicit SubnetMax at offset 0xC0 and nothing else
supplied. -/
def cfg6b : ConfigIn :=
  ⟨net6b, 0, 0xFD000000000000000000000000000000 + 0xC0, 0, RawBackend.absent⟩

/-- The Config parseConfig returns for cfg6b. -/
def out6b : Config :=
  ⟨net6b, 0xFD000000000000000000000000000000 + 0x40,
   0xFD000000000000000000000000000000 + 0xC0, 122, "udp", RawBackend.absent⟩

theorem resolveMin_ok_inv (bits : Nat) (net : IPNet) (len sMin mn : Nat)
    (h : resolveMin bits net len sMin = Except.ok mn) :
    (sMin = 0 → mn = nextNIP net.ip (2 ^ (bits - len)))
    ∧ (sMin ≠ 0 → mn = sMin) := by
  unfold resolveMin at h
  by_cases h0 : sMin = 0
  · rw [if_pos h0] at h
    exact ⟨fun _ => (Except.ok.inj h).symm, fun hn => absurd h0 hn⟩
  · rw [if_neg h0] at h
    split at h
    · exact Except.noConfusion h
    · exact ⟨fun hz => absurd hz h0, fun _ => (Except.ok.inj h).symm⟩

theorem resolveMax_ok_inv (bits : Nat) (net : IPNet) (len sMax mx : Nat)
    (h : resolveMax bits net len sMax = Except.ok mx) :
    (sMax = 0 → mx = previousNIP net.ip (2 ^ (bits - len)))
    ∧ (sMax ≠ 0 → mx = sMax) := by
  unfold resolveMax at h
  by_cases h0 : sMax = 0
  · rw [if_pos h0] at h
    exact ⟨fun _ => (Except.ok.inj h).symm, fun hn => absurd h0 hn⟩
  · rw [if_neg h0] at h
    split at h
    · exact Except.noConfusion h
    · exact ⟨fun hz => absurd hz h0, fun _ => (Except.ok.inj h).symm⟩

theorem resolveBounds_ok_inv (bits : Nat) (net : IPNet)
    (len sMin sMax mn mx : Nat)
    (h : resolveBounds bits net len sMin sMax = Except.ok (mn, mx)) :
    resolveMin bits net len sMin = Except.ok mn
    ∧ resolveMax bits net len sMax = Except.ok mx
    ∧ netContains net mn = true ∧ netContains net mx = true := by
  unfold resolveBounds at h
  split at h
  · exact Except.noConfusion h
  · rename_i mn' hmn
    split at h
    · exact Except.noConfusion h
    · rename_i mx' hmx
      split at h
      · exact Except.noConfusion h
      · split at h
        · exact Except.noConfusion h
        · rename_i hc1 hc2
          obtain ⟨h1, h2⟩ := Prod.mk.inj (Except.ok.inj h)
          refine ⟨h1 ▸ hmn, h2 ▸ hmx, ?_, ?_⟩
          · rw [← h1]; revert hc1; cases netContains net mn' <;> simp
          · rw [← h2]; revert hc2; cases netContains net mx' <;> simp

theorem resolveBounds_error_min (bits : Nat) (net : IPNet)
    (len sMin sMax : Nat) (h1 : sMin ≠ 0)
    (h2 : netContains net sMin = false) :
    resolveBounds bits net len sMin sMax
      = Except.error "SubnetMin is not in the range of the Network" := by
  unfold resolveBounds resolveMin
  rw [if_neg h1, if_pos h2]

theorem parseConfig_ok_inv (cfg : ConfigIn) (out : Config)
    (h : parseConfig cfg = Except.ok out) :
    ∃ len mn mx bt,
      (if cfg.network.proto = Protocol.v4
        then resolveSubnetLenV4 cfg.network.prefixLen cfg.subnetLen
        else resolveSubnetLenV6 cfg.network.prefixLen cfg.subnetLen)
          = Except.ok len
      ∧ resolveBounds (addrBits cfg.network.proto) cfg.network len
          cfg.subnetMin cfg.subnetMax = Except.ok (mn, mx)
      ∧ parseBackendType cfg.backend = Except.ok bt
      ∧ out = ⟨cfg.network, mn, mx, len, bt, cfg.backend⟩ := by
  unfold parseConfig at h
  split at h
  · exact Except.noConfusion h
  · rename_i len hlen
    split at h
    · exact Except.noConfusion h
    · rename_i mn mx hb
      split at h
      · exact Except.noConfusion h
      · rename_i bt hbt
        exact ⟨len, mn, mx, bt, hlen, hb, hbt, (Except.ok.inj h).symm⟩

theorem parseConfig_error_len (cfg : ConfigIn) (e : String)
    (h : (if cfg.network.proto = Protocol.v4
        then resolveSubnetLenV4 cfg.network.prefixLen cfg.subnetLen
        else resolveSubnetLenV6 cfg.network.prefixLen cfg.subnetLen)
      = Except.error e) :
    parseConfig cfg = Except.error e := by
  unfold parseConfig
  rw [h]

theorem parseConfig_error_bounds (cfg : ConfigIn) (len : Nat) (e : String)
    (hlen : (if cfg.network.proto = Protocol.v4
        then resolveSubnetLenV4 cfg.network.prefixLen cfg.subnetLen
        else resolveSubnetLenV6 cfg.network.prefixLen cfg.subnetLen)
      = Except.ok len)
    (hb : resolveBounds (addrBits cfg.network.proto) cfg.network len
        cfg.subnetMin cfg.subnetMax = Except.error e) :
    parseConfig cfg = Except.error e := by
  unfold parseConfig
  rw [hlen]
  dsimp only
  rw [hb]

theorem parseConfig_error_backend (cfg : ConfigIn) (len mn mx : Nat)
    (e : String)
    (hlen : (if cfg.network.proto = Protocol.v4
        then resolveSubnetLenV4 cfg.network.prefixLen cfg.subnetLen
        else resolveSubnetLenV6 cfg.network.prefixLen cfg.subnetLen)
      = Except.ok len)
    (hb : resolveBounds (addrBits cfg.network.proto) cfg.network len
        cfg.subnetMin cfg.subnetMax = Except.ok (mn, mx))
    (hbt : parseBackendType cfg.backend = Except.error e) :
    parseConfig cfg = Except.error e := by
  unfold parseConfig
  rw [hlen]
  dsimp only
  rw [hb]
  dsimp only
  rw [hbt]

theorem resolveSubnetLenV4_ok_pos (p len x : Nat) (h0 : 0 < len)
    (h : resolveSubnetLenV4 p len = Except.ok x) : x = len := by
  unfold resolveSubnetLenV4 at h
  rw [if_pos h0] at h
  split at h
  · exact Except.noConfusion h
  · split at h
    · exact Except.noConfusion h
    · exact (Except.ok.inj h).symm

theorem resolveSubnetLenV4_ok_small (p x : Nat) (hp : p ≤ 22)
    (h : resolveSubnetLenV4 p 0 = Except.ok x) : x = 24 := by
  unfold resolveSubnetLenV4 at h
  rw [if_neg (by omega), if_neg (by omega), if_pos hp] at h
  exact (Except.ok.inj h).symm

theorem resolveSubnetLenV4_ok_mid (p x : Nat) (h22 : 22 < p) (h28 : p ≤ 28)
    (h : resolveSubnetLenV4 p 0 = Except.ok x) : x = p + 2 := by
  unfold resolveSubnetLenV4 at h
  rw [if_neg (by omega), if_neg (by omega), if_neg (by omega)] at h
  exact (Except.ok.inj h).symm

theorem resolveSubnetLenV4_err_hi (p len : Nat) (h30 : 30 < len) :
    ∃ e, resolveSubnetLenV4 p len = Except.error e := by
  unfold resolveSubnetLenV4
  rw [if_pos (by omega), if_pos h30]
  exact ⟨_, rfl⟩

theorem resolveSubnetLenV4_err_low (p len : Nat) (h0 : 0 < len)
    (hl : len < p + 2) :
    ∃ e, resolveSubnetLenV4 p len = Except.error e := by
  unfold resolveSubnetLenV4
  rw [if_pos h0]
  by_cases hhi : 30 < len
  · rw [if_pos hhi]
    exact ⟨_, rfl⟩
  · rw [if_neg hhi, if_pos hl]
    exact ⟨_, rfl⟩

theorem resolveSubnetLenV4_err_big (p : Nat) (hp : 28 < p) :
    ∃ e, resolveSubnetLenV4 p 0 = Except.error e := by
  unfold resolveSubnetLenV4
  rw [if_neg (by omega), if_pos hp]
  exact ⟨_, rfl⟩

theorem resolveSubnetLenV6_ok_pos (p len x : Nat) (h0 : 0 < len)
    (h : resolveSubnetLenV6 p len = Except.ok x) : x = len := by
  unfold resolveSubnetLenV6 at h
  rw [if_pos h0] at h
  split at h
  · exact Except.noConfusion h
  · split at h
    · exact Except.noConfusion h
    · exact (Except.ok.inj h).symm

theorem resolveSubnetLenV6_ok_small (p x : Nat) (hp : p ≤ 118)
    (h : resolveSubnetLenV6 p 0 = Except.ok x) : x = 120 := by
  unfold resolveSubnetLenV6 at h
  rw [if_neg (by omega), if_neg (by omega), if_pos hp] at h
  exact (Except.ok.inj h).symm

theorem resolveSubnetLenV6_ok_mid (p x : Nat) (h118 : 118 < p) (h124 : p ≤ 124)
    (h : resolveSubnetLenV6 p 0 = Except.ok x) : x = p + 2 := by
  unfold resolveSubnetLenV6 at h
  rw [if_neg (by omega), if_neg (by omega), if_neg (by omega)] at h
  exact (Except.ok.inj h).symm

theorem resolveSubnetLenV6_err_hi (p len : Nat) (h126 : 126 < len) :
    ∃ e, resolveSubnetLenV6 p len = Except.error e := by
  unfold resolveSubnetLenV6
  rw [if_pos (by omega), if_pos h126]
  exact ⟨_, rfl⟩

theorem resolveSubnetLenV6_err_low (p len : Nat) (h0 : 0 < len)
    (hl : len < p + 2) :
    ∃ e, resolveSubnetLenV6 p len = Except.error e := by
  unfold resolveSubnetLenV6
  rw [if_pos h0]
  by_cases hhi : 126 < len
  · rw [if_pos hhi]
    exact ⟨_, rfl⟩
  · rw [if_neg hhi, if_pos hl]
    exact ⟨_, rfl⟩

theorem resolveSubnetLenV6_err_big (p : Nat) (hp : 124 < p) :
    ∃ e, resolveSubnetLenV6 p 0 = Except.error e := by
  unfold resolveSubnetLenV6
  rw [if_neg (by omega), if_pos hp]
  exact ⟨_, rfl⟩

/-- C2: refuted on the code: for Network=192.168.0.0/24 with nothing else
supplied, the default SubnetMax is computed as PreviousNIP(Network.IP,
subnetSize) = 192.168.0.0 - 64 = 192.167.255.192 rather than
lastAddress(Network) - subnetSize, an address below and outside the
network, so ParseConfig fails at its own SubnetMax containment re-check
instead of succeeding with SubnetMax = 192.168.0.192. -/
theorem parseConfig_default_subnetMax_bug :
    previousNIP net192.ip (2 ^ (32 - 26)) = 0xC0A7FFC0
    ∧ netContains net192 0xC0A7FFC0 = false
    ∧ parseConfig ⟨net192, 0, 0, 0, RawBackend.absent⟩
        = Except.error "SubnetMax is not on a SubnetLen boundary" := by
  refine ⟨by decide, by decide, by decide⟩

/-- C5: refuted on the code: with Network=10.0.0.0/16, SubnetLen=24 and
an explicit SubnetMin=10.0.1.1 that lies inside the network but is not a
multiple of the 2^8 per-host subnet size, ParseConfig succeeds and
returns a Config; the boundary re-check in the source is just Contains
again, which cannot fail for an in-range address, while the claim
requires a validation error. -/
theorem parseConfig_accepts_unaligned_subnetMin :
    (0x0A000101 : Nat) % 2 ^ (32 - 24) ≠ 0
    ∧ netContains net10 0x0A000101 = true
    ∧ parseConfig ⟨net10, 0x0A000101, 0x0A00FF00, 24, RawBackend.absent⟩
        = Except.ok ⟨net10, 0x0A000101, 0x0A00FF00, 24, "udp", RawBackend.absent⟩ := by
  refine ⟨by decide, by decide, by decide⟩

/-- C4: whenever SubnetMin is the family's all-zero address and
ParseConfig succeeds, the returned SubnetMin is Network.address +
2^(addrBits - SubnetLen) (the network's own first subnet is skipped) and
is contained in the network; and whenever SubnetMin is explicitly
supplied but the network does not contain it, ParseConfig fails. -/
theorem parseConfig_subnetMin_rule :
    (∀ cfg out, cfg.subnetMin = 0 → parseConfig cfg = Except.ok out →
      out.subnetMin
          = cfg.network.ip + 2 ^ (addrBits cfg.network.proto - out.subnetLen)
        ∧ netContains cfg.network out.subnetMin = true)
    ∧ ∀ cfg : ConfigIn, cfg.subnetMin ≠ 0 →
        netContains cfg.network cfg.subnetMin = false →
        ∃ e, parseConfig cfg = Except.error e := by
  constructor
  · intro cfg out h0 hok
    obtain ⟨len, mn, mx, bt, hlen, hb, hbt, hout⟩ := parseConfig_ok_inv cfg out hok
    obtain ⟨hmn, hmx, hcn, hcx⟩ := resolveBounds_ok_inv _ _ _ _ _ _ _ hb
    obtain ⟨hz, _⟩ := resolveMin_ok_inv _ _ _ _ _ hmn
    subst hout
    exact ⟨hz h0, hcn⟩
  · intro cfg hne hnc
    cases hlen : (if cfg.network.proto = Protocol.v4
        then resolveSubnetLenV4 cfg.network.prefixLen cfg.subnetLen
        else resolveSubnetLenV6 cfg.network.prefixLen cfg.subnetLen) with
    | error e => exact ⟨e, parseConfig_error_len cfg e hlen⟩
    | ok len =>
      exact ⟨_, parseConfig_error_bounds cfg len _ hlen
        (resolveBounds_error_min _ _ _ _ _ hne hnc)⟩

theorem parseConfig_subnetMin_rule_witness :
    (out192.subnetMin
        = cfg192.network.ip + 2 ^ (addrBits cfg192.network.proto - out192.subnetLen)
      ∧ netContains cfg192.network out192.subnetMin = true)
    ∧ ∃ e, parseConfig ⟨net192, 0x0A000001, 0xC0A800C0, 26, RawBackend.absent⟩
        = Except.error e :=
  ⟨parseConfig_subnetMin_rule.1 cfg192 out192 rfl (by decide),
   parseConfig_subnetMin_rule.2 ⟨net192, 0x0A000001, 0xC0A800C0, 26, RawBackend.absent⟩
     (by decide) (by decide)⟩

/-- C7: whenever the Backend payload is entirely absent and ParseConfig
succeeds, the returned BackendType is "udp"; and whenever the payload is
present but does not decode, ParseConfig fails (no Config is
returned). -/
theorem parseConfig_backendType_rule :
    (∀ cfg out, cfg.backend = RawBackend.absent →
      parseConfig cfg = Except.ok out → out.backendType = "udp")
    ∧ ∀ cfg : ConfigIn, cfg.backend = RawBackend.malformed →
        ∃ e, parseConfig cfg = Except.error e := by
  constructor
  · intro cfg out hb hok
    obtain ⟨len, mn, mx, bt, hlen, hbnd, hbt, hout⟩ := parseConfig_ok_inv cfg out hok
    subst hout
    rw [hb] at hbt
    simp only [parseBackendType] at hbt
    exact (Except.ok.inj hbt).symm
  · intro cfg hb
    cases hlen : (if cfg.network.proto = Protocol.v4
        then resolveSubnetLenV4 cfg.network.prefixLen cfg.subnetLen
        else resolveSubnetLenV6 cfg.network.prefixLen cfg.subnetLen) with
    | error e => exact ⟨e, parseConfig_error_len cfg e hlen⟩
    | ok len =>
      cases hbnd : resolveBounds (addrBits cfg.network.proto) cfg.network len
          cfg.subnetMin cfg.subnetMax with
      | error e => exact ⟨e, parseConfig_error_bounds cfg len e hlen hbnd⟩
      | ok mm =>
        obtain ⟨mn, mx⟩ := mm
        refine ⟨"error decoding Backend property of config",
          parseConfig_error_backend cfg len mn mx _ hlen hbnd ?_⟩
        rw [hb]
        rfl

theorem parseConfig_backendType_rule_witness :
    out192.backendType = "udp"
    ∧ ∃ e, parseConfig cfg192mal = Except.error e :=
  ⟨parseConfig_backendType_rule.1 cfg192 out192 rfl (by decide),
   parseConfig_backendType_rule.2 cfg192mal rfl⟩

/-- C10: a present, well-formed Backend payload with no Type field makes
ParseConfig succeed with BackendType = "" (not "udp"): the "udp" default
is produced by parseBackendType only for the zero-length payload or for
a payload that explicitly carries Type "udp". -/
theorem parseConfig_backendType_empty_field :
    (∀ cfg out, cfg.backend = RawBackend.object none →
      parseConfig cfg = Except.ok out → out.backendType = "")
    ∧ parseConfig cfg192obj = Except.ok out192obj
    ∧ ∀ b s, parseBackendType b = Except.ok s → s = "udp" →
        b = RawBackend.absent ∨ b = RawBackend.object (some "udp") := by
  refine ⟨?_, by decide, ?_⟩
  · intro cfg out hb hok
    obtain ⟨len, mn, mx, bt, hlen, hbnd, hbt, hout⟩ := parseConfig_ok_inv cfg out hok
    subst hout
    rw [hb] at hbt
    simp only [parseBackendType, Option.getD] at hbt
    exact (Except.ok.inj hbt).symm
  · intro b s hok hudp
    subst hudp
    cases b with
    | absent => exact Or.inl rfl
    | malformed => simp [parseBackendType] at hok
    | object t =>
      cases t with
      | none =>
        simp only [parseBackendType, Option.getD] at hok
        exact absurd (Except.ok.inj hok) (by decide)
      | some s' =>
        have h' : s' = "udp" := Except.ok.inj hok
        exact Or.inr (by rw [h'])

theorem parseConfig_backendType_empty_field_witness :
    out192obj.backendType = ""
    ∧ (RawBackend.absent = RawBackend.absent
        ∨ RawBackend.absent = RawBackend.object (some "udp")) :=
  ⟨parseConfig_backendType_empty_field.1 cfg192obj out192obj rfl (by decide),
   parseConfig_backendType_empty_field.2.2 RawBackend.absent "udp" rfl rfl⟩

/-- C3: SubnetLen resolution in ParseConfig: a supplied SubnetLen fails
above 30 (IPv4) / 126 (IPv6) or below prefixLen(Network)+2, and is kept
otherwise; an unsupplied SubnetLen fails when prefixLen(Network) exceeds
28 (IPv4) / 124 (IPv6), resolves to 24 (IPv4) / 120 (IPv6) when
prefixLen(Network) is at most 22 / 118, and to prefixLen(Network)+2
otherwise. -/
theorem parseConfig_subnetLen_resolution :
    (∀ cfg : ConfigIn, cfg.network.proto = Protocol.v4 →
      30 < cfg.subnetLen → ∃ e, parseConfig cfg = Except.error e)
    ∧ (∀ cfg : ConfigIn, cfg.network.proto = Protocol.v4 →
        0 < cfg.subnetLen → cfg.subnetLen < cfg.network.prefixLen + 2 →
        ∃ e, parseConfig cfg = Except.error e)
    ∧ (∀ cfg out, cfg.network.proto = Protocol.v4 → 0 < cfg.subnetLen →
        parseConfig cfg = Except.ok out → out.subnetLen = cfg.subnetLen)
    ∧ (∀ cfg : ConfigIn, cfg.network.proto = Protocol.v4 →
        cfg.subnetLen = 0 → 28 < cfg.network.prefixLen →
        ∃ e, parseConfig cfg = Except.error e)
    ∧ (∀ cfg out, cfg.network.proto = Protocol.v4 → cfg.subnetLen = 0 →
        cfg.network.prefixLen ≤ 22 → parseConfig cfg = Except.ok out →
        out.subnetLen = 24)
    ∧ (∀ cfg out, cfg.network.proto = Protocol.v4 → cfg.subnetLen = 0 →
        22 < cfg.network.prefixLen → cfg.network.prefixLen ≤ 28 →
        parseConfig cfg = Except.ok out →
        out.subnetLen = cfg.network.prefixLen + 2)
    ∧ (∀ cfg : ConfigIn, cfg.network.proto = Protocol.v6 →
        126 < cfg.subnetLen → ∃ e, parseConfig cfg = Except.error e)
    ∧ (∀ cfg : ConfigIn, cfg.network.proto = Protocol.v6 →
        0 < cfg.subnetLen → cfg.subnetLen < cfg.network.prefixLen + 2 →
        ∃ e, parseConfig cfg = Except.error e)
    ∧ (∀ cfg out, cfg.network.proto = Protocol.v6 → 0 < cfg.subnetLen →
        parseConfig cfg = Except.ok out → out.subnetLen = cfg.subnetLen)
    ∧ (∀ cfg : ConfigIn, cfg.network.proto = Protocol.v6 →
        cfg.subnetLen = 0 → 124 < cfg.network.prefixLen →
        ∃ e, parseConfig cfg = Except.error e)
    ∧ (∀ cfg out, cfg.network.proto = Protocol.v6 → cfg.subnetLen = 0 →
        cfg.network.prefixLen ≤ 118 → parseConfig cfg = Except.ok out →
        out.subnetLen = 120)
    ∧ (∀ cfg out, cfg.network.proto = Protocol.v6 → cfg.subnetLen = 0 →
        118 < cfg.network.prefixLen → cfg.network.prefixLen ≤ 124 →
        parseConfig cfg = Except.ok out →
        out.subnetLen = cfg.network.prefixLen + 2) := by
  refine ⟨?_, ?_, ?_, ?_, ?_, ?_, ?_, ?_, ?_, ?_, ?_, ?_⟩
  · intro cfg h4 h30
    obtain ⟨e, he⟩ := resolveSubnetLenV4_err_hi cfg.network.prefixLen cfg.subnetLen h30
    exact ⟨e, parseConfig_error_len cfg e (by rw [if_pos h4]; exact he)⟩
  · intro cfg h4 h0 hl
    obtain ⟨e, he⟩ := resolveSubnetLenV4_err_low cfg.network.prefixLen cfg.subnetLen h0 hl
    exact ⟨e, parseConfig_error_len cfg e (by rw [if_pos h4]; exact he)⟩
  · intro cfg out h4 h0 hok
    obtain ⟨len, mn, mx, bt, hlen, hb, hbt, hout⟩ := parseConfig_ok_inv cfg out hok
    rw [if_pos h4] at hlen
    subst hout
    exact resolveSubnetLenV4_ok_pos _ _ _ h0 hlen
  · intro cfg h4 h0 hp
    obtain ⟨e, he⟩ := resolveSubnetLenV4_err_big cfg.network.prefixLen hp
    refine ⟨e, parseConfig_error_len cfg e ?_⟩
    rw [if_pos h4, h0]
    exact he
  · intro cfg out h4 h0 hp hok
    obtain ⟨len, mn, mx, bt, hlen, hb, hbt, hout⟩ := parseConfig_ok_inv cfg out hok
    rw [if_pos h4, h0] at hlen
    subst hout
    exact resolveSubnetLenV4_ok_small _ _ hp hlen
  · intro cfg out h4 h0 h22 h28 hok
    obtain ⟨len, mn, mx, bt, hlen, hb, hbt, hout⟩ := parseConfig_ok_inv cfg out hok
    rw [if_pos h4, h0] at hlen
    subst hout
    exact resolveSubnetLenV4_ok_mid _ _ h22 h28 hlen
  · intro cfg h6 h126
    obtain ⟨e, he⟩ := resolveSubnetLenV6_err_hi cfg.network.prefixLen cfg.subnetLen h126
    exact ⟨e, parseConfig_error_len cfg e (by rw [if_neg (by simp [h6]), he])⟩
  · intro cfg h6 h0 hl
    obtain ⟨e, he⟩ := resolveSubnetLenV6_err_low cfg.network.prefixLen cfg.subnetLen h0 hl
    exact ⟨e, parseConfig_error_len cfg e (by rw [if_neg (by simp [h6]), he])⟩
  · intro cfg out h6 h0 hok
    obtain ⟨len, mn, mx, bt, hlen, hb, hbt, hout⟩ := parseConfig_ok_inv cfg out hok
    rw [if_neg (by simp [h6])] at hlen
    subst hout
    exact resolveSubnetLenV6_ok_pos _ _ _ h0 hlen
  · intro cfg h6 h0 hp
    obtain ⟨e, he⟩ := resolveSubnetLenV6_err_big cfg.network.prefixLen hp
    refine ⟨e, parseConfig_error_len cfg e ?_⟩
    rw [if_neg (by simp [h6]), h0]
    exact he
  · intro cfg out h6 h0 hp hok
    obtain ⟨len, mn, mx, bt, hlen, hb, hbt, hout⟩ := parseConfig_ok_inv cfg out hok
    rw [if_neg (by simp [h6]), h0] at hlen
    subst hout
    exact resolveSubnetLenV6_ok_small _ _ hp hlen
  · intro cfg out h6 h0 h118 h124 hok
    obtain ⟨len, mn, mx, bt, hlen, hb, hbt, hout⟩ := parseConfig_ok_inv cfg out hok
    rw [if_neg (by simp [h6]), h0] at hlen
    subst hout
    exact resolveSubnetLenV6_ok_mid _ _ h118 h124 hlen

theorem parseConfig_subnetLen_resolution_witness :
    (∃ e, parseConfig ⟨net192, 0, 0xC0A800C0, 31, RawBackend.absent⟩
        = Except.error e)
    ∧ (∃ e, parseConfig ⟨net192, 0, 0xC0A800C0, 25, RawBackend.absent⟩
        = Except.error e)
    ∧ out192.subnetLen = cfg192len.subnetLen
    ∧ (∃ e, parseConfig ⟨⟨Protocol.v4, 0x0A000000, 29⟩, 0, 0, 0, RawBackend.absent⟩
        = Except.error e)
    ∧ out10.subnetLen = 24
    ∧ out192.subnetLen = cfg192.network.prefixLen + 2
    ∧ (∃ e, parseConfig ⟨net6, 0, 0, 127, RawBackend.absent⟩ = Except.error e)
    ∧ (∃ e, parseConfig ⟨net6, 0, 0, 65, RawBackend.absent⟩ = Except.error e)
    ∧ out6len.subnetLen = cfg6len.subnetLen
    ∧ (∃ e, parseConfig ⟨⟨Protocol.v6, 0xFD000000000000000000000000000000, 125⟩,
          0, 0, 0, RawBackend.absent⟩ = Except.error e)
    ∧ out6.subnetLen = 120
    ∧ out6b.subnetLen = cfg6b.network.prefixLen + 2 :=
  ⟨parseConfig_subnetLen_resolution.1 _ rfl (by decide),
   parseConfig_subnetLen_resolution.2.1 _ rfl (by decide) (by decide),
   parseConfig_subnetLen_resolution.2.2.1 cfg192len out192 rfl (by decide) (by decide),
   parseConfig_subnetLen_resolution.2.2.2.1 _ rfl rfl (by decide),
   parseConfig_subnetLen_resolution.2.2.2.2.1 cfg10 out10 rfl rfl (by decide) (by decide),
   parseConfig_subnetLen_resolution.2.2.2.2.2.1 cfg192 out192 rfl rfl (by decide)
     (by decide) (by decide),
   parseConfig_subnetLen_resolution.2.2.2.2.2.2.1 _ rfl (by decide),
   parseConfig_subnetLen_resolution.2.2.2.2.2.2.2.1 _ rfl (by decide) (by decide),
   parseConfig_subnetLen_resolution.2.2.2.2.2.2.2.2.1 cfg6len out6len rfl (by decide)
     (by decide),
   parseConfig_subnetLen_resolution.2.2.2.2.2.2.2.2.2.1 _ rfl rfl (by decide),
   parseConfig_subnetLen_resolution.2.2.2.2.2.2.2.2.2.2.1 cfg6 out6 rfl rfl (by decide)
     (by decide),
   parseConfig_subnetLen_resolution.2.2.2.2.2.2.2.2.2.2.2 cfg6b out6b rfl rfl
     (by decide) (by decide) (by decide)⟩

theorem replaceSlashDash_append (a b : List Char) :
    replaceSlashDash (a ++ b) = replaceSlashDash a ++ replaceSlashDash b := by
  induction a with
  | nil => rfl
  | cons c cs ih => simp [replaceSlashDash, ih]

theorem replaceSlashDash_of_not_mem (l : List Char) (h : '/' ∉ l) :
    replaceSlashDash l = l := by
  induction l with
  | nil => rfl
  | cons c cs ih =>
    have hc : c ≠ '/' := fun hcc => h (hcc ▸ List.mem_cons_self c cs)
    simp only [replaceSlashDash, if_neg hc]
    rw [ih fun hm => h (List.mem_cons_of_mem c hm)]

theorem digitChar_ne_slash (n : Nat) (h : n < 16) : Nat.digitChar n ≠ '/' := by
  interval_cases n <;> decide

theorem slash_not_mem_natDigitsAux (fuel : Nat) :
    ∀ n, '/' ∉ natDigitsAux fuel n := by
  induction fuel with
  | zero => intro n; simp [natDigitsAux]
  | succ f ih =>
    intro n
    simp only [natDigitsAux]
    split
    · simp only [List.mem_singleton]
      exact fun hh => digitChar_ne_slash n (by omega) hh.symm
    · simp only [List.mem_append, List.mem_singleton]
      rintro (hm | hm)
      · exact ih _ hm
      · exact digitChar_ne_slash (n % 10) (by omega) hm.symm

theorem slash_not_mem_natDigits (n : Nat) : '/' ∉ natDigits n :=
  slash_not_mem_natDigitsAux (n + 1) n

theorem slash_not_mem_hexGroup (v : Nat) : '/' ∉ hexGroup v := by
  simp only [hexGroup, List.mem_cons, List.not_mem_nil, or_false]
  rintro (h | h | h | h) <;>
    exact digitChar_ne_slash _ (by omega) h.symm

theorem slash_not_mem_ipExpand (p : Protocol) (a : Nat) :
    '/' ∉ ipExpand p a := by
  cases p with
  | v4 =>
    intro hm
    simp only [ipExpand, List.mem_append, List.mem_cons] at hm
    rcases hm with h | h | h | h | h | h | h
    · exact slash_not_mem_natDigits _ h
    · exact absurd h (by decide)
    · exact slash_not_mem_natDigits _ h
    · exact absurd h (by decide)
    · exact slash_not_mem_natDigits _ h
    · exact absurd h (by decide)
    · exact slash_not_mem_natDigits _ h
  | v6 =>
    intro hm
    simp only [ipExpand, List.mem_append, List.mem_cons] at hm
    rcases hm with h | h | h | h | h | h | h | h | h | h | h | h | h | h | h
    all_goals first
      | exact slash_not_mem_hexGroup _ h
      | exact absurd h (by decide)

/-- C6: MakeSubnetKey produces the fully expanded textual address of the
subnet — standard dotted form for IPv4; for IPv6 all eight 16-bit groups
written as four hex digits with leading zeros, colon-separated, never
compressed with :: — followed by the prefix length, with the sole '/'
separator replaced by '-'. -/
theorem makeSubnetKey_expanded_form (n : IPNet) :
    makeSubnetKey n = ipExpand n.proto n.ip ++ '-' :: natDigits n.prefixLen
    ∧ '/' ∉ makeSubnetKey n
    ∧ (n.proto = Protocol.v6 → ∃ g : Fin 8 → List Char,
        (∀ i, (g i).length = 4) ∧
          ipExpand n.proto n.ip
            = g 0 ++ ':' :: (g 1 ++ ':' :: (g 2 ++ ':' :: (g 3 ++ ':' ::
                (g 4 ++ ':' :: (g 5 ++ ':' :: (g 6 ++ ':' :: g 7))))))) := by
  have h1 : makeSubnetKey n
      = ipExpand n.proto n.ip ++ '-' :: natDigits n.prefixLen := by
    show replaceSlashDash (ipNetExpand n) = _
    rw [ipNetExpand, replaceSlashDash_append,
        replaceSlashDash_of_not_mem _ (slash_not_mem_ipExpand _ _)]
    simp only [replaceSlashDash, if_pos]
    rw [replaceSlashDash_of_not_mem _ (slash_not_mem_natDigits _)]
  refine ⟨h1, ?_, ?_⟩
  · rw [h1]
    intro hm
    simp only [List.mem_append, List.mem_cons] at hm
    rcases hm with h | h | h
    · exact slash_not_mem_ipExpand _ _ h
    · exact absurd h (by decide)
    · exact slash_not_mem_natDigits _ h
  · intro hp
    obtain ⟨pr, a, plen⟩ := n
    dsimp only at hp
    subst hp
    refine ⟨fun i => [hexGroup (a / 2 ^ 112 % 65536), hexGroup (a / 2 ^ 96 % 65536),
      hexGroup (a / 2 ^ 80 % 65536), hexGroup (a / 2 ^ 64 % 65536),
      hexGroup (a / 2 ^ 48 % 65536), hexGroup (a / 2 ^ 32 % 65536),
      hexGroup (a / 2 ^ 16 % 65536), hexGroup (a % 65536)].get i, ?_, ?_⟩
    · intro i
      fin_cases i <;> rfl
    · rfl

theorem makeSubnetKey_expanded_form_witness :
    ∃ g : Fin 8 → List Char, (∀ i, (g i).length = 4) ∧
      ipExpand Protocol.v6 1
        = g 0 ++ ':' :: (g 1 ++ ':' :: (g 2 ++ ':' :: (g 3 ++ ':' ::
            (g 4 ++ ':' :: (g 5 ++ ':' :: (g 6 ++ ':' :: g 7)))))) :=
  (makeSubnetKey_expanded_form ⟨Protocol.v6, 1, 64⟩).2.2 rfl

theorem parseSubnetKeyV6_eq_none (s : List Char) : parseSubnetKeyV6 s = none := by
  unfold parseSubnetKeyV6
  repeat' split
  all_goals rfl

theorem parseSubnetKey_eq_none (s : List Char) : parseSubnetKey s = none := by
  unfold parseSubnetKey
  repeat' split
  all_goals first | rfl | exact parseSubnetKeyV6_eq_none s

/-- C1: the claimed round trip ParseSubnetKey(MakeSubnetKey x) = x fails
on the code: at the subnet 10.16.0.0/16 the encoder produces the key
10.16.0.0-16, but the decoder returns nil for it, because the two arms
after net.ParseCIDR inside ParseSubnetKey are swapped — on error the nil
cidr is returned and on success the literal nil is (subnet.go lines
117-121 and 131-135), so every input decodes to nil. -/
theorem parseSubnetKey_roundtrip_bug :
    makeSubnetKey ⟨Protocol.v4, 0x0A100000, 16⟩
      = ['1', '0', '.', '1', '6', '.', '0', '.', '0', '-', '1', '6']
    ∧ parseSubnetKey (makeSubnetKey ⟨Protocol.v4, 0x0A100000, 16⟩) = none :=
  ⟨by decide, parseSubnetKey_eq_none _⟩

/-- C8: decoding an EventType accepts exactly the two raw JSON values
"added" and "removed" (with their quotes), mapping them to EventAdded and
EventRemoved, and returns the decode error "bad event type" for every
other input. -/
theorem eventType_unmarshal_exact :
    eventTypeUnmarshalJSON "\"added\"" = Except.ok EventAdded
    ∧ eventTypeUnmarshalJSON "\"removed\"" = Except.ok EventRemoved
    ∧ ∀ s : String, s ≠ "\"added\"" → s ≠ "\"removed\"" →
        eventTypeUnmarshalJSON s = Except.error "bad event type" := by
  refine ⟨by decide, by decide, ?_⟩
  intro s h1 h2
  unfold eventTypeUnmarshalJSON
  rw [if_neg h1, if_neg h2]

theorem eventType_unmarshal_exact_witness :
    eventTypeUnmarshalJSON "added" = Except.error "bad event type" :=
  eventType_unmarshal_exact.2.2 "added" (by decide) (by decide)

/-- C9: in the spec-modelled store with atomic create-if-absent
reservation, two AcquireLease calls for the same explicit subnet, run in
either interleaving (the two callers perform the identical atomic
operation, so both orders are this sequential composition), produce
exactly one success and one ErrLeaseTaken failure, and leave exactly one
live lease for the subnet. -/
theorem acquireLease_same_subnet_exclusive (taken : List (List Char))
    (sn : IPNet) (h : makeSubnetKey sn ∉ taken) :
    (acquireExplicit taken sn).1 = Except.ok (makeSubnetKey sn)
    ∧ (acquireExplicit (acquireExplicit taken sn).2 sn).1
        = Except.error "subnet: lease already taken"
    ∧ ((acquireExplicit (acquireExplicit taken sn).2 sn).2).count
        (makeSubnetKey sn) = taken.count (makeSubnetKey sn) + 1 := by
  have h2 : (acquireExplicit taken sn).2 = makeSubnetKey sn :: taken := by
    simp [acquireExplicit, h]
  refine ⟨by simp [acquireExplicit, h], ?_, ?_⟩
  · rw [h2]
    simp [acquireExplicit]
  · rw [h2]
    simp [acquireExplicit]

theorem acquireLease_same_subnet_exclusive_witness :
    (acquireExplicit [] ⟨Protocol.v4, 0x0A100000, 16⟩).1
        = Except.ok (makeSubnetKey ⟨Protocol.v4, 0x0A100000, 16⟩)
    ∧ (acquireExplicit (acquireExplicit [] ⟨Protocol.v4, 0x0A100000, 16⟩).2
          ⟨Protocol.v4, 0x0A100000, 16⟩).1
        = Except.error "subnet: lease already taken"
    ∧ ((acquireExplicit (acquireExplicit [] ⟨Protocol.v4, 0x0A100000, 16⟩).2
          ⟨Protocol.v4, 0x0A100000, 16⟩).2).count
        (makeSubnetKey ⟨Protocol.v4, 0x0A100000, 16⟩)
        = ([] : List (List Char)).count (makeSubnetKey ⟨Protocol.v4, 0x0A100000, 16⟩) + 1 :=
  acquireLease_same_subnet_exclusive [] ⟨Protocol.v4, 0x0A100000, 16⟩
    (List.not_mem_nil _)
